import Mathlib

/-
Verification development for the stonehenge L2 trigger core
(src/stonehenge.cpp, src/curl.cpp).

The C sources are embedded shallowly: machine unsigned 64-bit arithmetic
is modelled as Nat with explicit reduction modulo 2 to the 64, the C int
conversion of a uint64 value as a two-complement truncation to 32 bits,
arrays as lists of Nat words, and the static function-local state of
compute_times and of the alarm limiter as explicit state records threaded
through the step functions.
-/

namespace Stonehenge

/-- Two to the 64, the modulus of C unsigned 64-bit arithmetic. -/
def W64 : Nat := 2 ^ 64

/-- Source constant maxtime = 1UL shifted left 43: when the 50MHz clock rolls over. -/
def maxtime : Nat := 2 ^ 43

/-- Source constant maxjump = 10*50000000 (uint64_t). -/
def maxjump : Nat := 10 * 50000000

/-- Source constant maxdrift = 5000 (int). -/
def maxdrift : Int := 5000

/-- Source constant MAX_NHIT = 10240. -/
def MAX_NHIT : Nat := 10240

/-- Source constant MAX_BUFFSIZE = 0x400000 (4 MB). -/
def MAX_BUFFSIZE : Nat := 0x400000

/-- Unsigned 64-bit subtraction a - b as in the source, where the time50
fields, hit times and maxjump are unsigned 64-bit quantities, so a
difference with b larger than a wraps modulo 2 to the 64. -/
def usub (a b : Nat) : Nat := (a % W64 + (W64 - b % W64)) % W64

/-- Unsigned 64-bit addition. -/
def uadd (a b : Nat) : Nat := (a + b) % W64

/-- Conversion of a uint64 value to a C int (32-bit, two-complement wrap),
as in the declaration const int dd = (ternary on uint64 values). -/
def toInt32 (n : Nat) : Int :=
  if n % 4294967296 < 2147483648 then ((n % 4294967296 : Nat) : Int)
  else ((n % 4294967296 : Nat) : Int) - 4294967296

/-- Modelled from the spec: the configuration struct is declared in the
repository header config.h, which is not under src/.  The spec lists its
immutable per-run parameters: high/low hit-count cuts, low-cut activation
threshold and window, retrigger cut and window, trigger bit mask, and the
burst parameters.  All are machine integers holding nonnegative counts. -/
structure configuration where
  nhithi : Nat
  nhitlo : Nat
  lothresh : Nat
  lowindow : Nat
  retrigcut : Nat
  retrigwindow : Nat
  bitmask : Nat
  nhitbcut : Nat
  burstwindow : Nat
  burstsize : Nat
  endrate : Nat
deriving DecidableEq

/-- Modelled from the spec: the alltimes struct is declared in a repository
header not under src/.  Per the spec data model it holds the primary-clock
tick (time50, a 43-bit value in a 64-bit field), the secondary-clock tick
(time10), the 64-bit rollover-free longtime, the rollover counter epoch,
the wall-clock second of the last and previous update, and the expiry tick
exptime.  The source manipulates time50/time10/longtime/exptime with
unsigned 64-bit arithmetic (hit times are built as uint64_t in ReadHits and
maxjump is uint64_t). -/
structure alltimes where
  time50 : Nat
  time10 : Nat
  longtime : Nat
  epoch : Nat
  walltime : Int
  oldwalltime : Int
  exptime : Nat
deriving DecidableEq

/-- Modelled from the spec: the hitinfo struct is declared in a repository
header not under src/.  Field list and zero initialization taken from
InitHit in src/stonehenge.cpp. -/
structure hitinfo where
  time50 : Nat
  time10 : Nat
  triggertype : Nat
  nhit : Nat
  reclen : Nat
  gtid : Nat
  run : Nat
deriving DecidableEq

/-- The alarm messages raised by the code paths embedded here, one
constructor per distinct message string in src/stonehenge.cpp. -/
inductive Msg where
  | newEpoch
  | timeBackward
  | largeGap
  | clockDrift
  | outOfOrderReset
  | tooManyHits
  | rhdrMidRun
  | noRhdrDefault
deriving DecidableEq

/-- The function-local static state of compute_times: the previous
unproblematic timestamp and the pending-problem flag. -/
structure CTState where
  standard : alltimes
  problem : Bool
deriving DecidableEq

/-- Result of one compute_times call: the returned alltimes, the updated
static state, the by-reference retrigger flags, the orphan counter of
l2stats, the alarms raised, and whether the reset branch ran (it calls
ClearBuffer and sets NHITCUT to the high cut). -/
structure CTOut where
  newat : alltimes
  st : CTState
  passretrig : Bool
  retrig : Bool
  orphan : Nat
  alarms : List Msg
  clearBuffer : Bool
  resetNhit : Bool
deriving DecidableEq

/-- The newat value at the point where compute_times calls IsConsistent:
a copy of oldat with the decoded hit times written in. -/
def newatPre (hits : hitinfo) (oldat : alltimes) : alltimes :=
  { oldat with time50 := hits.time50, time10 := hits.time10 }

/-- The cross-clock drift dd computed in compute_times.  The ternary takes
the magnitude of 5*(old.time10 - new.time10) - (old.time50 - new.time50)
in unsigned 64-bit arithmetic and the result is converted to int. -/
def ddOf (hits : hitinfo) (oldat : alltimes) : Int :=
  let d10 := usub oldat.time10 hits.time10 * 5 % W64
  let d50 := usub oldat.time50 hits.time50
  toInt32 (if d10 > d50 then d10 - d50 else d50 - d10)

/-- IsConsistent from src/stonehenge.cpp lines 251-277.  The C function
takes newat by reference and may increment its epoch even when it
subsequently returns false, so the model returns the possibly-updated
newat together with the boolean verdict and the alarms raised.  Note that
the final jump check newat.time50 - standard.time50 is an unsigned 64-bit
subtraction and runs also after the rollover branch. -/
def IsConsistent (newat standard : alltimes) (dd : Int) : alltimes × Bool × List Msg :=
  if newat.time50 < standard.time50 then
    if uadd standard.time50 newat.time50 < maxtime + maxjump ∧ dd < maxdrift ∧
        standard.time50 > maxtime - maxjump then
      let n2 := { newat with epoch := newat.epoch + 1 }
      if usub n2.time50 standard.time50 > maxjump then (n2, false, [Msg.newEpoch, Msg.largeGap])
      else (n2, true, [Msg.newEpoch])
    else (newat, false, [Msg.timeBackward])
  else
    if usub newat.time50 standard.time50 > maxjump then (newat, false, [Msg.largeGap])
    else (newat, true, [])

/-- The retrigger update in compute_times: returns the new
(passretrig, retrig) pair.  The difference newat.time50 - oldat.time50 is
unsigned 64-bit. -/
def retrigUpd (cfg : configuration) (hits : hitinfo) (oldat : alltimes)
    (passretrig : Bool) : Bool × Bool :=
  if usub hits.time50 oldat.time50 > 0 ∧ usub hits.time50 oldat.time50 ≤ cfg.retrigwindow then
    (passretrig, true)
  else
    (false, false)

/-- compute_times from src/stonehenge.cpp lines 281-361, with the two
function-local statics (standard, problem) made explicit in CTState.
External collaborator calls (Checkbuffer, ClearBuffer) are recorded as
flags.  eventn is the event counter, already incremented by main before
the call, so eventn = 1 marks the first event. -/
def compute_times (cfg : configuration) (hits : hitinfo) (oldat : alltimes)
    (eventn : Nat) (passretrig retrig : Bool) (orphan : Nat) (st : CTState) : CTOut :=
  if eventn = 1 then
    let n1 := { oldat with time50 := hits.time50, time10 := hits.time10 }
    let orphan1 := if n1.time50 = 0 then orphan + 1 else orphan
    let n2 := { n1 with longtime := n1.time50 }
    ⟨n2, ⟨n2, false⟩, passretrig, retrig, orphan1, [], false, false⟩
  else
    let n1 := newatPre hits oldat
    let dd := ddOf hits oldat
    let drift : List Msg := if dd > maxdrift then [Msg.clockDrift] else []
    let prrt := retrigUpd cfg hits oldat passretrig
    if n1.time50 = 0 then
      ⟨{ n1 with time50 := oldat.time50 }, st, prrt.1, prrt.2, orphan + 1, drift, false, false⟩
    else
      let ic := IsConsistent n1 st.standard dd
      if ic.2.1 then
        let n2 := { ic.1 with longtime := (ic.1.time50 + maxtime * ic.1.epoch) % W64 }
        ⟨n2, ⟨n2, false⟩, prrt.1, prrt.2, orphan, drift ++ ic.2.2, false, false⟩
      else if st.problem then
        let n2 := { ic.1 with epoch := 0, longtime := ic.1.time50, exptime := 0 }
        ⟨n2, ⟨n2, false⟩, prrt.1, prrt.2, orphan,
          drift ++ ic.2.2 ++ [Msg.outOfOrderReset], true, true⟩
      else
        ⟨st.standard, ⟨st.standard, true⟩, prrt.1, prrt.2, orphan, drift ++ ic.2.2, false, false⟩

/-- l2filter from src/stonehenge.cpp lines 368-389.  The global NHITCUT is
passed as the nhitcut parameter and the stats array as an 8-entry list.
The final for loop increments exactly the entry indexed by key, which the
model writes as a single list update. -/
def l2filter (nhit word : Nat) (passretrig retrig : Bool) (nhitcut : Nat)
    (cfg : configuration) (stats : List Nat) : Bool × List Nat :=
  let pass := false
  let key := 0
  let pk1 := if nhit > nhitcut then (true, key + 1) else (pass, key)
  let pk2 := if word &&& cfg.bitmask ≠ 0 then (true, pk1.2 + 2) else pk1
  let pk3 := if passretrig ∧ retrig ∧ nhit > cfg.retrigcut then (true, pk2.2 + 4) else pk2
  (pk3.1, stats.set pk3.2 (stats.getD pk3.2 0 + 1))

/-- setthreshold from src/stonehenge.cpp lines 458-466.  The global NHITCUT
is threaded as the second component; exptime is assigned with unsigned
64-bit arithmetic. -/
def setthreshold (cfg : configuration) (nhit : Nat) (s : alltimes × Nat) : alltimes × Nat :=
  let s1 := if nhit > cfg.lothresh then
              ({ s.1 with exptime := (s.1.longtime + cfg.lowindow) % W64 }, cfg.nhitlo)
            else s
  if s1.1.longtime > s1.1.exptime then (s1.1, cfg.nhithi) else s1

/-- updatetime from src/stonehenge.cpp lines 469-473, with the sampled unix
time passed in. -/
def updatetime (a : alltimes) (wt : Int) : alltimes :=
  let a1 := if a.walltime ≠ 0 then { a with oldwalltime := a.walltime } else a
  { a1 with walltime := wt }

/-- One per-record use of setthreshold as main performs it: the alltimes
longtime field carries the current record tick, then setthreshold runs.
The pair p is (nhit, longtime) of the record. -/
def threshStep (cfg : configuration) (s : alltimes × Nat) (p : Nat × Nat) : alltimes × Nat :=
  setthreshold cfg p.1 ({ s.1 with longtime := p.2 }, s.2)

/-- Folding threshStep over a list of (nhit, longtime) records. -/
def threshRun (cfg : configuration) (ps : List (Nat × Nat)) (s : alltimes × Nat) :
    alltimes × Nat :=
  ps.foldl (threshStep cfg) s

/-- InitHit from src/stonehenge.cpp lines 477-487. -/
def InitHit : hitinfo := ⟨0, 0, 0, 0, 0, 0, 0⟩

/-- InitTime from src/stonehenge.cpp lines 447-454.  The C code leaves
time50/time10/longtime uninitialized and sets epoch from the external
GetEpoch; the model zeroes the former (they are written before first read)
and takes the initial epoch as a parameter. -/
def InitTime (e : Nat) : alltimes := ⟨0, 0, 0, e, 0, 0, 0⟩

/-- Modelled from the spec: ZDAB_RECORD is the hit-record bank tag from the
external ZDAB format header (not in this repository): the decoder returns
not-a-hit-record for any record whose kind marker differs from it.  The
marker word is taken at word 0 of the 9-word nZDAB header. -/
def ZDAB_RECORD : Nat := 0x5a444142

/-- Modelled from the spec: SUB_NOT_LAST is the high more-records-follow
flag bit of a sub-record header, from the external ZDAB format header.  We
take the top bit of the 32-bit word. -/
def SUB_NOT_LAST : Nat := 0x80000000

/-- Modelled from the spec: SUB_LENGTH_MASK selects the low word-count bits
of a sub-record header, from the external ZDAB format header.  We take 28
low bits, wide enough that the MAX_BUFFSIZE/4 bound checked in ReadHits is
reachable. -/
def SUB_LENGTH_MASK : Nat := 0x0fffffff

/-- One 32-bit word with its four bytes reversed: the byte-order flip
performed by the external SWAP_INT32 macro on each word. -/
def swap32 (w : Nat) : Nat :=
  w % 256 * 16777216 + w / 256 % 256 * 65536 + w / 65536 % 256 * 256 + w / 16777216 % 256

/-- SWAP_INT32(buffer + pos, n): byte-swap n consecutive words in place
starting at word index pos.  Writes past the end of the list are dropped,
as the model has no out-of-buffer memory. -/
def swapAt (buf : List Nat) (pos : Nat) : Nat → List Nat
  | 0 => buf
  | n + 1 => swapAt (buf.set pos (swap32 (buf.getD pos 0))) (pos + 1) n

/-- Modelled from the spec: SWAP_PMT_RECORD flips the fields of the
11-word PmtEventRecord header (buffer words 9 to 19, after the 9-word
nZDAB header) between wire and host order; the model flips each of the 11
words.  The macro lives in the external ZDAB library header. -/
def swapPmtRecord (buf : List Nat) : List Nat := swapAt buf 9 11

/-- The sub-record chain walk of ReadHits (src/stonehenge.cpp lines
536-550), starting at the CalPckType word (index 19).  Returns
(truncated, event_size, buffer).  The C while loop has no iteration bound
of its own; the model carries fuel, set by the caller well above the
largest possible chain, and reports the chain as ended if fuel runs out. -/
def walkSub (buf : List Nat) (pos size : Nat) : Nat → Bool × Nat × List Nat
  | 0 => (false, size, buf)
  | fuel + 1 =>
    let w := buf.getD pos 0
    if w &&& SUB_NOT_LAST ≠ 0 then
      let jump := w &&& SUB_LENGTH_MASK
      if jump > MAX_BUFFSIZE / 4 then (true, size, buf)
      else
        let b1 := swapAt buf pos 1
        let pos1 := pos + jump
        let b2 := swapAt b1 pos1 1
        let datawords := b2.getD pos1 0 &&& SUB_LENGTH_MASK
        let b3 := swapAt b2 pos1 datawords
        walkSub b3 pos1 (size + datawords) fuel
    else (false, size, buf)

/-- Result of one ReadHits call: the int return value, the in-out hitinfo,
the record buffer after the in-place byte swaps, and the alarms raised. -/
structure RHOut where
  ret : Nat
  hit : hitinfo
  buf : List Nat
  alarms : List Msg
deriving DecidableEq

/-- ReadHits from src/stonehenge.cpp lines 495-557 over the record buffer
as a list of 32-bit words.  Word offsets inside the PmtEventRecord header
(words 9-19) are modelled from the spec, since the struct layout lives in
the external ZDAB library header: RunNumber at word 9, NPmtHit at word 10,
the 6-word TriggerCardData at words 13-18 (with the Bc10/Bc50 bit fields
and the trigger-word byte ranges of spec section 4.1), CalPckType at word
19, and the 3-words-per-hit data from word 20.  On the chain-truncation
path the C code returns 0 before assigning reclen and before any restoring
swap, which the model reproduces exactly. -/
def ReadHits (buf : List Nat) (hit0 : hitinfo) : RHOut :=
  if buf.getD 0 0 ≠ ZDAB_RECORD then ⟨1, hit0, buf, []⟩
  else
    let b1 := swapPmtRecord buf
    let nhit := b1.getD 10 0
    let hit1 := { hit0 with nhit := nhit }
    if nhit > MAX_NHIT then ⟨1, hit1, b1, [Msg.tooManyHits]⟩
    else
      let mtc0 := b1.getD 13 0
      let mtc1 := b1.getD 14 0
      let mtc2 := b1.getD 15 0
      let mtc3 := b1.getD 16 0
      let mtc4 := b1.getD 17 0
      let hit2 := { hit1 with
        gtid := mtc0 &&& 0xffffff,
        run := b1.getD 9 0,
        time50 := (mtc2 <<< 11) + (mtc1 >>> 21 &&& 0x7ff),
        time10 := ((mtc1 &&& 0x1fffff) <<< 32) + mtc0,
        triggertype := (mtc3 &&& 0xff000000) >>> 24 ||| (mtc4 &&& 0x3ffff) <<< 8 }
      let wk := walkSub b1 19 (20 + 3 * nhit) (MAX_BUFFSIZE / 4 + 2)
      if wk.1 then ⟨0, hit2, wk.2.2, []⟩
      else
        let hit3 := { hit2 with reclen := wk.2.1 }
        let b2 := swapPmtRecord wk.2.2
        let b3 := swapAt b2 20 (3 * nhit)
        ⟨0, hit3, b3, []⟩

/-- The per-run mutable state of the main record loop of
src/stonehenge.cpp lines 560-690: the configknown flag, the time state,
the compute_times statics, the retrigger flags, the global NHITCUT, the
8-bucket stats histogram, the counts and l2stats counters, the persistent
hitinfo object, and the burst status bit. -/
structure MainState where
  configknown : Bool
  alltime : alltimes
  ctstate : CTState
  passretrig : Bool
  retrig : Bool
  nhitcut : Nat
  stats : List Nat
  eventn : Nat
  recordn : Nat
  orphan : Nat
  l1 : Nat
  l2 : Nat
  hits : hitinfo
  burstbool : Bool
deriving DecidableEq

/-- Per-record inputs of one main-loop iteration: the runtype returned by
the external FillHeaderBuffer, the raw record buffer, the unix time
sampled by updatetime, and the burst-ongoing verdict of the external
Burstfile collaborator. -/
structure StepIn where
  runtype : Nat
  buf : List Nat
  walltime : Int
  burstNow : Bool
deriving DecidableEq

/-- Observable outcome of one main-loop iteration: the new state, whether
OutZdab wrote this record to the primary output (and the buffer contents
it wrote), the alarms raised, and whether ClearBuffer ran. -/
structure StepOut where
  state : MainState
  written : Bool
  writtenBuf : Option (List Nat)
  alarms : List Msg
  clearedBuffer : Bool

/-- One iteration of the record loop of main (src/stonehenge.cpp lines
611-690).  External effects (SetConfig, WriteConfig, redis, the burst
buffer) are outside the embedded state; the loaded configuration is the
cfg parameter throughout.  Note that a record with nonzero runtype sets
configknown and then tests it again in the same iteration, and that a
ReadHits return of 1 routes the record to the unfiltered pass-through
write. -/
def mainStep (cfg : configuration) (s : MainState) (inp : StepIn) : StepOut :=
  let ck1 := if inp.runtype ≠ 0 ∧ s.configknown = false then true else s.configknown
  let a2 : List Msg := if inp.runtype ≠ 0 ∧ ck1 = true then [Msg.rhdrMidRun] else []
  let r := ReadHits inp.buf s.hits
  if r.ret = 0 then
    let eventn := s.eventn + 1
    let ct := compute_times cfg r.hit s.alltime eventn s.passretrig s.retrig s.orphan s.ctstate
    let at1 := updatetime ct.newat inp.walltime
    let cka : Bool × List Msg := if ck1 = false then (true, [Msg.noRhdrDefault]) else (ck1, [])
    let nc0 := if ct.resetNhit then cfg.nhithi else s.nhitcut
    let ts := setthreshold cfg r.hit.nhit (at1, nc0)
    let word := r.hit.triggertype
    let bb := if r.hit.nhit > cfg.nhitbcut ∧ word &&& cfg.bitmask = 0 then
                s.burstbool || inp.burstNow
              else s.burstbool
    let lf := l2filter r.hit.nhit word ct.passretrig ct.retrig ts.2 cfg s.stats
    { state := { configknown := cka.1, alltime := ts.1, ctstate := ct.st,
                 passretrig := if lf.1 then true else ct.passretrig, retrig := ct.retrig,
                 nhitcut := ts.2, stats := lf.2, eventn := eventn,
                 recordn := s.recordn + 1, orphan := ct.orphan, l1 := s.l1 + 1,
                 l2 := if lf.1 then s.l2 + 1 else s.l2, hits := r.hit, burstbool := bb },
      written := lf.1,
      writtenBuf := if lf.1 then some r.buf else none,
      alarms := a2 ++ r.alarms ++ ct.alarms ++ cka.2,
      clearedBuffer := ct.clearBuffer }
  else
    { state := { s with
                 configknown := ck1, hits := r.hit,
                 recordn := s.recordn + 1, l1 := s.l1 + 1, l2 := s.l2 + 1 },
      written := true,
      writtenBuf := some r.buf,
      alarms := a2 ++ r.alarms,
      clearedBuffer := false }

end Stonehenge

namespace Curl

/-- An outbound delivery attempted by the alarm limiter of src/curl.cpp:
either a regular message at its log level, or the synthetic overflow
summary carrying the number of skipped messages. -/
inductive Emit where
  | sent : Nat → Emit
  | skipped : Nat → Emit
deriving DecidableEq

/-- The file-static state of src/curl.cpp: per-class per-second counters,
per-class suppressed counters, and the last observed wall-clock second. -/
structure AlarmState where
  alarmn : List Nat
  overflow : List Nat
  oldwalltime : Int
deriving DecidableEq

/-- type from src/curl.cpp lines 17-28, mapping the numeric log level to
the severity-class index (DEBUG 0, INFO 1, SUCCESS 2, WARNING 3, ERROR 4). -/
def type (level : Nat) : Nat :=
  if level = 20 then 1
  else if level = 21 then 2
  else if level = 30 then 3
  else if level = 40 then 4
  else 0

/-- The static max array of src/curl.cpp line 11: the per-second budget of
each severity class. -/
def max : List Nat := [5, 3, 2, 5, 1]

/-- alarm from src/curl.cpp lines 31-65, with the sampled wall-clock
second passed in and curl deliveries returned as a list of Emit values.
On a second boundary all counters are zeroed and, if any messages were
suppressed, one summary message with the total is delivered; then the
current message is counted and either delivered or suppressed. -/
def alarmStep (walltime : Int) (level : Nat) (s : AlarmState) : AlarmState × List Emit :=
  let flushed : AlarmState × List Emit :=
    if walltime ≠ s.oldwalltime then
      let overflowsum := s.overflow.sum
      let s1 : AlarmState := ⟨List.replicate 5 0, List.replicate 5 0, walltime⟩
      if overflowsum ≠ 0 then (s1, [Emit.skipped overflowsum]) else (s1, [])
    else (s, [])
  let s2 := flushed.1
  let c := type level
  let an := s2.alarmn.set c (s2.alarmn.getD c 0 + 1)
  if an.getD c 0 > max.getD c 0 then
    (⟨an, s2.overflow.set c (s2.overflow.getD c 0 + 1), s2.oldwalltime⟩, flushed.2)
  else
    (⟨an, s2.overflow, s2.oldwalltime⟩, flushed.2 ++ [Emit.sent level])

/-- A sequence of alarm calls, accumulating the deliveries in order. -/
def alarmRun : List (Int × Nat) → AlarmState → AlarmState × List Emit
  | [], s => (s, [])
  | p :: t, s =>
    let r := alarmStep p.1 p.2 s
    let rest := alarmRun t r.1
    (rest.1, r.2 ++ rest.2)

/-- Number of regular deliveries in an emission list. -/
def countSent (l : List Emit) : Nat :=
  l.countP fun e => match e with | Emit.sent _ => true | _ => false

/-- Number of synthetic skip-summary deliveries in an emission list. -/
def countSkip (l : List Emit) : Nat :=
  l.countP fun e => match e with | Emit.skipped _ => true | _ => false

end Curl

namespace Stonehenge

/-- A concrete run configuration used by the concrete evaluations below. -/
def cfg0 : configuration := ⟨100, 60, 50, 2000, 30, 23, 2, 80, 0, 0, 0⟩

/-- A last-good time state sitting 100 ticks below the 43-bit rollover
boundary, with consistent clocks (time10 in 10MHz ticks). -/
def stdC1 : alltimes := ⟨maxtime - 100, 1000, maxtime - 100, 0, 0, 0, 0⟩

/-- The decoded hit just after the rollover: 100 ticks past zero on the
50MHz clock, 40 ticks later on the 10MHz clock, so the cross-clock drift
is exactly zero. -/
def hitsC1 : hitinfo := ⟨100, 1040, 0, 50, 0, 0, 0⟩

/-- A wire-order hit record whose first sub-record header (word 19, host
value 0x80200000 after the byte flip) has the more-records flag set and a
jump of 0x200000 words, past the MAX_BUFFSIZE/4 bound.  The nhit word
(word 10) decodes to 5. -/
def c3buf : List Nat :=
  [ZDAB_RECORD, 0, 0, 0, 0, 0, 0, 0, 0,
   0, 0x05000000, 0, 0, 0, 0, 0, 0, 0, 0, 0x00002080, 0]

/-- A wire-order hit record whose nhit word (word 10) decodes to 10241,
just past MAX_NHIT. -/
def c4buf : List Nat :=
  [ZDAB_RECORD, 0, 0, 0, 0, 0, 0, 0, 0,
   0, 0x01280000, 0, 0, 0, 0, 0, 0, 0, 0, 0]

/-- The initial main-loop state: statics zero-initialized, counters zero,
no configuration known. -/
def s0 : MainState :=
  ⟨false, InitTime 0, ⟨InitTime 0, false⟩, false, false, 0, List.replicate 8 0,
   0, 0, 0, 0, 0, InitHit, false⟩

end Stonehenge

namespace Stonehenge

/-- Reading an updated list entry back. -/
theorem getD_set_self (l : List Nat) (k v : Nat) (h : k < l.length) :
    (l.set k v).getD k 0 = v := by
  induction l generalizing k with
  | nil => simp at h
  | cons a t ih =>
    cases k with
    | zero => rfl
    | succ k => exact ih k (by simpa using h)

/-- Updating one list entry leaves the others unchanged. -/
theorem getD_set_ne (l : List Nat) (i k v : Nat) (h : i ≠ k) :
    (l.set k v).getD i 0 = l.getD i 0 := by
  induction l generalizing i k with
  | nil => rfl
  | cons a t ih =>
    cases k with
    | zero =>
      cases i with
      | zero => exact absurd rfl h
      | succ i => rfl
    | succ k =>
      cases i with
      | zero => rfl
      | succ i => exact ih i k (by omega)

/-- Every entry of a zero list reads as zero. -/
theorem getD_replicate_zero (n c : Nat) : (List.replicate n (0 : Nat)).getD c 0 = 0 := by
  induction n generalizing c with
  | zero => rfl
  | succ n ih =>
    cases c with
    | zero => rfl
    | succ c => exact ih c

/-- IsConsistent never changes the time50 field of its by-reference
argument. -/
theorem IsConsistent_time50 (n s : alltimes) (d : Int) :
    (IsConsistent n s d).1.time50 = n.time50 := by
  unfold IsConsistent
  split_ifs <;> dsimp only <;> first | rfl | (split_ifs <;> rfl)

/-- IsConsistent never changes the time10 field of its by-reference
argument. -/
theorem IsConsistent_time10 (n s : alltimes) (d : Int) :
    (IsConsistent n s d).1.time10 = n.time10 := by
  unfold IsConsistent
  split_ifs <;> dsimp only <;> first | rfl | (split_ifs <;> rfl)

end Stonehenge


namespace Stonehenge

/-- C1: the claim states that with standard.time50 above 2 to the 43 minus
maxjump, a smaller new time50 with their sum below 2 to the 43 plus
maxjump and drift below 5000 is accepted as a rollover, with epoch
incremented once and longtime strictly increasing.  On the code this
fails: IsConsistent takes the rollover branch (and bumps epoch in the
by-reference temporary), but then the check newat.time50 - standard.time50
> maxjump runs in unsigned 64-bit arithmetic, the difference wraps to
nearly 2 to the 64, and the record is rejected, so compute_times discards
the update, keeps the old state and sets the problem flag.  This theorem
evaluates the embedded code at a concrete rollover with drift exactly 0:
all the rollover preconditions of the claim hold, the rollover branch is
indeed taken (the epoch of the IsConsistent temporary becomes 1), yet the
verdict is false and the returned state is the unchanged standard with
epoch 0 and unchanged longtime. -/
theorem rollover_rejected_by_jump_check :
    (stdC1.time50 > maxtime - maxjump ∧ hitsC1.time50 < stdC1.time50 ∧
      stdC1.time50 + hitsC1.time50 < maxtime + maxjump ∧ ddOf hitsC1 stdC1 = 0) ∧
    (IsConsistent (newatPre hitsC1 stdC1) stdC1 (ddOf hitsC1 stdC1)).1.epoch = 1 ∧
    (IsConsistent (newatPre hitsC1 stdC1) stdC1 (ddOf hitsC1 stdC1)).2.1 = false ∧
    (compute_times cfg0 hitsC1 stdC1 2 false false 0 ⟨stdC1, false⟩).newat = stdC1 ∧
    (compute_times cfg0 hitsC1 stdC1 2 false false 0 ⟨stdC1, false⟩).newat.epoch = 0 ∧
    (compute_times cfg0 hitsC1 stdC1 2 false false 0 ⟨stdC1, false⟩).newat.longtime =
      stdC1.longtime ∧
    (compute_times cfg0 hitsC1 stdC1 2 false false 0 ⟨stdC1, false⟩).st.problem = true := by
  decide

/-- C2: a single rejected reading sets the problem flag and returns the
unmodified standard state, with no reset; a rejection with the problem
flag already pending performs exactly the forced reset: epoch 0,
exptime 0, longtime equal to the new time50, the new reading adopted as
standard, ClearBuffer called, and the problem flag cleared. -/
theorem two_strike_reset (cfg : configuration) (hits : hitinfo) (oldat : alltimes)
    (eventn : Nat) (pr rt : Bool) (orphan : Nat) (st : CTState)
    (h1 : eventn ≠ 1) (h2 : hits.time50 ≠ 0)
    (h3 : (IsConsistent (newatPre hits oldat) st.standard (ddOf hits oldat)).2.1 = false) :
    (st.problem = false →
      (compute_times cfg hits oldat eventn pr rt orphan st).newat = st.standard ∧
      (compute_times cfg hits oldat eventn pr rt orphan st).st.standard = st.standard ∧
      (compute_times cfg hits oldat eventn pr rt orphan st).st.problem = true ∧
      (compute_times cfg hits oldat eventn pr rt orphan st).clearBuffer = false) ∧
    (st.problem = true →
      (compute_times cfg hits oldat eventn pr rt orphan st).st.problem = false ∧
      (compute_times cfg hits oldat eventn pr rt orphan st).newat.epoch = 0 ∧
      (compute_times cfg hits oldat eventn pr rt orphan st).newat.exptime = 0 ∧
      (compute_times cfg hits oldat eventn pr rt orphan st).newat.longtime = hits.time50 ∧
      (compute_times cfg hits oldat eventn pr rt orphan st).newat.time50 = hits.time50 ∧
      (compute_times cfg hits oldat eventn pr rt orphan st).newat.time10 = hits.time10 ∧
      (compute_times cfg hits oldat eventn pr rt orphan st).st.standard =
        (compute_times cfg hits oldat eventn pr rt orphan st).newat ∧
      (compute_times cfg hits oldat eventn pr rt orphan st).clearBuffer = true) := by
  have hz : (newatPre hits oldat).time50 ≠ 0 := h2
  have h50 := IsConsistent_time50 (newatPre hits oldat) st.standard (ddOf hits oldat)
  have h10 := IsConsistent_time10 (newatPre hits oldat) st.standard (ddOf hits oldat)
  unfold compute_times
  rw [if_neg h1]
  dsimp only
  rw [if_neg hz, h3]
  constructor
  · intro hp
    rw [hp]
    simp
  · intro hp
    rw [hp]
    simp only [newatPre] at h50 h10 ⊢
    simp [h50, h10]

/-- C2 witness: a concrete large-gap rejection (standard at tick 1000, new
reading maxjump + 1 ticks later) with no pending problem: the record is
rejected, the standard state is returned unmodified and the problem flag
is set, with no reset. -/
theorem two_strike_reset_witness :
    (compute_times cfg0 ⟨500001001, 0, 0, 0, 0, 0, 0⟩ ⟨1000, 0, 1000, 0, 0, 0, 0⟩ 2 false false 0
        ⟨⟨1000, 0, 1000, 0, 0, 0, 0⟩, false⟩).newat = ⟨1000, 0, 1000, 0, 0, 0, 0⟩ ∧
    (compute_times cfg0 ⟨500001001, 0, 0, 0, 0, 0, 0⟩ ⟨1000, 0, 1000, 0, 0, 0, 0⟩ 2 false false 0
        ⟨⟨1000, 0, 1000, 0, 0, 0, 0⟩, false⟩).st.standard = ⟨1000, 0, 1000, 0, 0, 0, 0⟩ ∧
    (compute_times cfg0 ⟨500001001, 0, 0, 0, 0, 0, 0⟩ ⟨1000, 0, 1000, 0, 0, 0, 0⟩ 2 false false 0
        ⟨⟨1000, 0, 1000, 0, 0, 0, 0⟩, false⟩).st.problem = true ∧
    (compute_times cfg0 ⟨500001001, 0, 0, 0, 0, 0, 0⟩ ⟨1000, 0, 1000, 0, 0, 0, 0⟩ 2 false false 0
        ⟨⟨1000, 0, 1000, 0, 0, 0, 0⟩, false⟩).clearBuffer = false :=
  (two_strike_reset cfg0 ⟨500001001, 0, 0, 0, 0, 0, 0⟩ ⟨1000, 0, 1000, 0, 0, 0, 0⟩ 2 false false 0
    ⟨⟨1000, 0, 1000, 0, 0, 0, 0⟩, false⟩ (by decide) (by decide) (by decide)).1 rfl

/-- C3: the claim states that a sub-record jump past MAX_BUFFSIZE/4 aborts
decoding with a TruncatedRecord fault, the event dropped and an alarm
raised.  On the code this fails: ReadHits returns 0, the success value, so
main processes the record as a normal hit; no alarm is raised, the reclen
field keeps its stale previous value, and the buffer is left partially
byte-swapped.  This theorem evaluates the embedded decoder on a concrete
record whose first sub-record header jumps 0x200000 words. -/
theorem truncated_record_processed_as_hit :
    (ReadHits c3buf InitHit).ret = 0 ∧
    (ReadHits c3buf InitHit).alarms = [] ∧
    (ReadHits c3buf InitHit).hit.reclen = InitHit.reclen ∧
    (ReadHits c3buf InitHit).buf ≠ c3buf := by
  decide

/-- C4: the claim states that the record buffer is bit-identical after
ReadHits on every return path.  On the code this fails on the over-large
nhit path: SWAP_PMT_RECORD has been applied once when the nhit check
fires, and the function returns 1 without the restoring swap, so the
returned buffer differs from the input wherever the byte flip is not the
identity.  This theorem evaluates the embedded decoder on a concrete
record with nhit 10241. -/
theorem readHits_leaves_buffer_swapped :
    (ReadHits c4buf InitHit).ret = 1 ∧
    (ReadHits c4buf InitHit).hit.nhit = 10241 ∧
    (ReadHits c4buf InitHit).buf = swapPmtRecord c4buf ∧
    (ReadHits c4buf InitHit).buf ≠ c4buf := by
  decide

end Stonehenge


namespace Stonehenge

/-- Unfolding of ReadHits on a hit record whose decoded hit count exceeds
MAX_NHIT: the function alarms, stores the bad nhit in the in-out hitinfo,
and returns 1 with the buffer still byte-swapped. -/
theorem ReadHits_malformed (buf : List Nat) (h0 : hitinfo)
    (hb : buf.getD 0 0 = ZDAB_RECORD)
    (hn : (swapPmtRecord buf).getD 10 0 > MAX_NHIT) :
    ReadHits buf h0 =
      ⟨1, { h0 with nhit := (swapPmtRecord buf).getD 10 0 }, swapPmtRecord buf,
        [Msg.tooManyHits]⟩ := by
  unfold ReadHits
  rw [if_neg (fun hne => hne hb)]
  dsimp only
  rw [if_pos hn]

/-- C5 counterexample: the claim states that an event with hit count above
10240 is dropped.  On the code ReadHits returns 1 for it, which routes the
record to the unconditional pass-through write of main, so OutZdab writes
it to the output (in its byte-swapped state): it is not dropped. -/
theorem malformed_record_written_out :
    (mainStep cfg0 s0 ⟨0, c4buf, 0, false⟩).written = true ∧
    (mainStep cfg0 s0 ⟨0, c4buf, 0, false⟩).writtenBuf = some (swapPmtRecord c4buf) := by
  decide

/-- C5 amended: for every hit record whose decoded hit count exceeds
10240, the decoder raises the too-many-hits alarm, the event is excluded
from the filter histogram (the stats buckets are unchanged), the event
counter does not advance, processing continues (the record counter
advances), but the record is not dropped: it is forwarded to the
unfiltered pass-through output write, in its byte-swapped state. -/
theorem malformed_record_passthrough (cfg : configuration) (s : MainState) (inp : StepIn)
    (hb : inp.buf.getD 0 0 = ZDAB_RECORD)
    (hn : (swapPmtRecord inp.buf).getD 10 0 > MAX_NHIT) :
    (mainStep cfg s inp).written = true ∧
    (mainStep cfg s inp).writtenBuf = some (swapPmtRecord inp.buf) ∧
    (mainStep cfg s inp).state.stats = s.stats ∧
    (mainStep cfg s inp).state.eventn = s.eventn ∧
    (mainStep cfg s inp).state.recordn = s.recordn + 1 ∧
    Msg.tooManyHits ∈ (mainStep cfg s inp).alarms := by
  unfold mainStep
  rw [ReadHits_malformed inp.buf s.hits hb hn]
  dsimp only
  norm_num

/-- C5 witness: the amended statement evaluated on the concrete record
with nhit 10241 from the initial state. -/
theorem malformed_record_passthrough_witness :
    (mainStep cfg0 s0 ⟨0, c4buf, 0, false⟩).written = true ∧
    (mainStep cfg0 s0 ⟨0, c4buf, 0, false⟩).writtenBuf = some (swapPmtRecord c4buf) ∧
    (mainStep cfg0 s0 ⟨0, c4buf, 0, false⟩).state.stats = s0.stats ∧
    (mainStep cfg0 s0 ⟨0, c4buf, 0, false⟩).state.eventn = s0.eventn ∧
    (mainStep cfg0 s0 ⟨0, c4buf, 0, false⟩).state.recordn = s0.recordn + 1 ∧
    Msg.tooManyHits ∈ (mainStep cfg0 s0 ⟨0, c4buf, 0, false⟩).alarms :=
  malformed_record_passthrough cfg0 s0 ⟨0, c4buf, 0, false⟩ (by decide) (by decide)

/-- C6: l2filter accepts exactly when the hit count exceeds the active
cut, or the trigger word meets the bit mask, or the retrigger latch and
flag are set with the hit count above the retrigger cut; and it increments
exactly the stats bucket indexed by the 3-bit combination of the three
conditions, leaving the other seven buckets unchanged. -/
theorem l2filter_spec (nhit word nhitcut : Nat) (pr rt : Bool)
    (cfg : configuration) (stats : List Nat) (h : stats.length = 8) :
    ((l2filter nhit word pr rt nhitcut cfg stats).1 = true ↔
      (nhit > nhitcut ∨ word &&& cfg.bitmask ≠ 0 ∨ (pr ∧ rt ∧ nhit > cfg.retrigcut))) ∧
    ((if nhit > nhitcut then 1 else 0) + (if word &&& cfg.bitmask ≠ 0 then 2 else 0) +
        (if pr ∧ rt ∧ nhit > cfg.retrigcut then 4 else 0) < 8) ∧
    (l2filter nhit word pr rt nhitcut cfg stats).2.getD
        ((if nhit > nhitcut then 1 else 0) + (if word &&& cfg.bitmask ≠ 0 then 2 else 0) +
          (if pr ∧ rt ∧ nhit > cfg.retrigcut then 4 else 0)) 0 =
      stats.getD
        ((if nhit > nhitcut then 1 else 0) + (if word &&& cfg.bitmask ≠ 0 then 2 else 0) +
          (if pr ∧ rt ∧ nhit > cfg.retrigcut then 4 else 0)) 0 + 1 ∧
    ∀ i, i ≠ (if nhit > nhitcut then 1 else 0) + (if word &&& cfg.bitmask ≠ 0 then 2 else 0) +
          (if pr ∧ rt ∧ nhit > cfg.retrigcut then 4 else 0) →
      (l2filter nhit word pr rt nhitcut cfg stats).2.getD i 0 = stats.getD i 0 := by
  unfold l2filter
  split_ifs with h1 h2 h3 h3 h2 h3 h3 <;>
    exact ⟨by simp [h1, h2, h3], by norm_num, getD_set_self stats _ _ (by omega),
           fun i hi => getD_set_ne stats i _ _ (by omega)⟩

/-- C6 witness: the filter evaluated with an over-cut hit count and a
matching trigger word on a zeroed 8-bucket histogram. -/
theorem l2filter_spec_witness :
    ((l2filter 120 2 false false 100 cfg0 (List.replicate 8 0)).1 = true ↔
      (120 > 100 ∨ 2 &&& cfg0.bitmask ≠ 0 ∨ (false = true ∧ false = true ∧ 120 > cfg0.retrigcut))) ∧
    ((if 120 > 100 then 1 else 0) + (if 2 &&& cfg0.bitmask ≠ 0 then 2 else 0) +
        (if false = true ∧ false = true ∧ 120 > cfg0.retrigcut then 4 else 0) < 8) ∧
    (l2filter 120 2 false false 100 cfg0 (List.replicate 8 0)).2.getD
        ((if 120 > 100 then 1 else 0) + (if 2 &&& cfg0.bitmask ≠ 0 then 2 else 0) +
          (if false = true ∧ false = true ∧ 120 > cfg0.retrigcut then 4 else 0)) 0 =
      (List.replicate 8 0).getD
        ((if 120 > 100 then 1 else 0) + (if 2 &&& cfg0.bitmask ≠ 0 then 2 else 0) +
          (if false = true ∧ false = true ∧ 120 > cfg0.retrigcut then 4 else 0)) 0 + 1 ∧
    ∀ i, i ≠ (if 120 > 100 then 1 else 0) + (if 2 &&& cfg0.bitmask ≠ 0 then 2 else 0) +
          (if false = true ∧ false = true ∧ 120 > cfg0.retrigcut then 4 else 0) →
      (l2filter 120 2 false false 100 cfg0 (List.replicate 8 0)).2.getD i 0 =
        (List.replicate 8 0).getD i 0 :=
  l2filter_spec 120 2 100 false false cfg0 (List.replicate 8 0) (by decide)

end Stonehenge


namespace Stonehenge

/-- The hysteresis invariant: while every record stays at or below the
low-activation threshold and at or below the armed expiry tick, the armed
exptime and the low cut persist unchanged through any number of records. -/
theorem thresh_inv (cfg : configuration) (T : Nat) (rs : List (Nat × Nat)) :
    ∀ s : alltimes × Nat, s.1.exptime = T + cfg.lowindow → s.2 = cfg.nhitlo →
    (∀ p ∈ rs, p.1 ≤ cfg.lothresh ∧ p.2 ≤ T + cfg.lowindow) →
    (threshRun cfg rs s).1.exptime = T + cfg.lowindow ∧ (threshRun cfg rs s).2 = cfg.nhitlo := by
  induction rs with
  | nil => intro s h1 h2 _; exact ⟨h1, h2⟩
  | cons p t ih =>
    intro s h1 h2 hmem
    obtain ⟨hn, hL⟩ := hmem p (List.mem_cons_self p t)
    have hstep : (threshStep cfg s p).1.exptime = T + cfg.lowindow ∧
        (threshStep cfg s p).2 = cfg.nhitlo := by
      unfold threshStep setthreshold
      rw [if_neg (show ¬(p.1 > cfg.lothresh) by omega)]
      dsimp only
      rw [if_neg (show ¬(p.2 > s.1.exptime) by omega)]
      exact ⟨h1, h2⟩
    have := ih (threshStep cfg s p) hstep.1 hstep.2
      (fun q hq => hmem q (List.mem_cons_of_mem p hq))
    simpa [threshRun, List.foldl_cons] using this

/-- C8: after a record with nhit above lothresh arms the window at tick T
(exptime becomes T + lowindow and the low cut is selected), every
following record with longtime at most T + lowindow and nhit at or below
lothresh still sees the low cut at every prefix of the run, and a record
with longtime beyond T + lowindow (and nhit not re-arming) sees the high
cut. -/
theorem threshold_hysteresis (cfg : configuration) (a0 : alltimes) (nc0 n0 T : Nat)
    (hW : T + cfg.lowindow < W64) (hT : a0.longtime = T) (h0 : n0 > cfg.lothresh)
    (rs : List (Nat × Nat))
    (hrs : ∀ p ∈ rs, p.1 ≤ cfg.lothresh ∧ T < p.2 ∧ p.2 ≤ T + cfg.lowindow)
    (n2 L2 : Nat) (hn2 : n2 ≤ cfg.lothresh) (hL2 : L2 > T + cfg.lowindow) :
    (setthreshold cfg n0 (a0, nc0)).1.exptime = T + cfg.lowindow ∧
    (setthreshold cfg n0 (a0, nc0)).2 = cfg.nhitlo ∧
    (∀ k, (threshRun cfg (rs.take k) (setthreshold cfg n0 (a0, nc0))).2 = cfg.nhitlo) ∧
    (threshStep cfg (threshRun cfg rs (setthreshold cfg n0 (a0, nc0))) (n2, L2)).2 =
      cfg.nhithi := by
  have harm : (setthreshold cfg n0 (a0, nc0)).1.exptime = T + cfg.lowindow ∧
      (setthreshold cfg n0 (a0, nc0)).2 = cfg.nhitlo := by
    unfold setthreshold
    rw [if_pos h0]
    dsimp only
    rw [hT, Nat.mod_eq_of_lt hW]
    rw [if_neg (show ¬(T > T + cfg.lowindow) by omega)]
    exact ⟨rfl, rfl⟩
  refine ⟨harm.1, harm.2, ?_, ?_⟩
  · intro k
    exact (thresh_inv cfg T (rs.take k) (setthreshold cfg n0 (a0, nc0)) harm.1 harm.2
      (fun p hp => ⟨(hrs p (List.mem_of_mem_take hp)).1,
        (hrs p (List.mem_of_mem_take hp)).2.2⟩)).2
  · have hrun := thresh_inv cfg T rs (setthreshold cfg n0 (a0, nc0)) harm.1 harm.2
      (fun p hp => ⟨(hrs p hp).1, (hrs p hp).2.2⟩)
    obtain ⟨he, -⟩ := hrun
    generalize hs2 : threshRun cfg rs (setthreshold cfg n0 (a0, nc0)) = s2 at he ⊢
    unfold threshStep setthreshold
    rw [if_neg (show ¬(n2 > cfg.lothresh) by omega)]
    dsimp only
    rw [if_pos (show L2 > s2.1.exptime by rw [he]; exact hL2)]

/-- C8 witness: arming at tick 100 with window 10 (low cut 3, high cut 8,
activation threshold 5), two in-window records at ticks 105 and 110 keep
the low cut, and a record at tick 111 reverts to the high cut. -/
theorem threshold_hysteresis_witness :
    (threshStep ⟨8, 3, 5, 10, 0, 0, 0, 0, 0, 0, 0⟩
      (threshRun ⟨8, 3, 5, 10, 0, 0, 0, 0, 0, 0, 0⟩ [(2, 105), (0, 110)]
        (setthreshold ⟨8, 3, 5, 10, 0, 0, 0, 0, 0, 0, 0⟩ 6 (⟨0, 0, 100, 0, 0, 0, 0⟩, 0)))
      (1, 111)).2 = configuration.nhithi ⟨8, 3, 5, 10, 0, 0, 0, 0, 0, 0, 0⟩ :=
  (threshold_hysteresis ⟨8, 3, 5, 10, 0, 0, 0, 0, 0, 0, 0⟩ ⟨0, 0, 100, 0, 0, 0, 0⟩ 0 6 100
    (by decide) rfl (by decide) [(2, 105), (0, 110)] (by decide) 1 111 (by decide)
    (by decide)).2.2.2

/-- C9 counterexample: the claim states that a zero time50 reading returns
the previous time state unchanged in every field.  On the code the time10
field has already been overwritten with the new reading when the zero
check fires and is not restored: here the previous time10 is 5 but the
returned state carries 7. -/
theorem orphan_time10_changed :
    (compute_times cfg0 ⟨0, 7, 0, 10, 0, 0, 0⟩ ⟨500, 5, 500, 0, 0, 0, 0⟩ 2 false false 0
        ⟨⟨500, 5, 500, 0, 0, 0, 0⟩, false⟩).orphan = 1 ∧
    (compute_times cfg0 ⟨0, 7, 0, 10, 0, 0, 0⟩ ⟨500, 5, 500, 0, 0, 0, 0⟩ 2 false false 0
        ⟨⟨500, 5, 500, 0, 0, 0, 0⟩, false⟩).newat.time10 = 7 ∧
    (compute_times cfg0 ⟨0, 7, 0, 10, 0, 0, 0⟩ ⟨500, 5, 500, 0, 0, 0, 0⟩ 2 false false 0
        ⟨⟨500, 5, 500, 0, 0, 0, 0⟩, false⟩).newat ≠ ⟨500, 5, 500, 0, 0, 0, 0⟩ := by
  decide

/-- C9 amended: for every record after the first with zero decoded time50,
compute_times increments the orphan counter and returns the previous state
with time50, longtime, epoch, exptime and the walltime fields unchanged,
but with time10 overwritten by the new readings time10; the statics are
untouched and no reset occurs. -/
theorem orphan_keeps_state_except_time10 (cfg : configuration) (hits : hitinfo)
    (oldat : alltimes) (eventn : Nat) (pr rt : Bool) (orphan : Nat) (st : CTState)
    (h1 : eventn ≠ 1) (h2 : hits.time50 = 0) :
    (compute_times cfg hits oldat eventn pr rt orphan st).newat.time50 = oldat.time50 ∧
    (compute_times cfg hits oldat eventn pr rt orphan st).newat.time10 = hits.time10 ∧
    (compute_times cfg hits oldat eventn pr rt orphan st).newat.longtime = oldat.longtime ∧
    (compute_times cfg hits oldat eventn pr rt orphan st).newat.epoch = oldat.epoch ∧
    (compute_times cfg hits oldat eventn pr rt orphan st).newat.exptime = oldat.exptime ∧
    (compute_times cfg hits oldat eventn pr rt orphan st).newat.walltime = oldat.walltime ∧
    (compute_times cfg hits oldat eventn pr rt orphan st).orphan = orphan + 1 ∧
    (compute_times cfg hits oldat eventn pr rt orphan st).st = st ∧
    (compute_times cfg hits oldat eventn pr rt orphan st).clearBuffer = false := by
  have hz : (newatPre hits oldat).time50 = 0 := h2
  unfold compute_times
  rw [if_neg h1]
  dsimp only
  rw [if_pos hz]
  simp [newatPre]

/-- C9 witness: the amended statement evaluated at a concrete zero-time50
record. -/
theorem orphan_keeps_state_except_time10_witness :
    (compute_times cfg0 ⟨0, 7, 0, 10, 0, 0, 0⟩ ⟨500, 5, 500, 0, 0, 0, 0⟩ 2 false false 3
        ⟨⟨500, 5, 500, 0, 0, 0, 0⟩, false⟩).newat.time50 = (500 : Nat) ∧
    (compute_times cfg0 ⟨0, 7, 0, 10, 0, 0, 0⟩ ⟨500, 5, 500, 0, 0, 0, 0⟩ 2 false false 3
        ⟨⟨500, 5, 500, 0, 0, 0, 0⟩, false⟩).newat.time10 = (7 : Nat) ∧
    (compute_times cfg0 ⟨0, 7, 0, 10, 0, 0, 0⟩ ⟨500, 5, 500, 0, 0, 0, 0⟩ 2 false false 3
        ⟨⟨500, 5, 500, 0, 0, 0, 0⟩, false⟩).newat.longtime = (500 : Nat) ∧
    (compute_times cfg0 ⟨0, 7, 0, 10, 0, 0, 0⟩ ⟨500, 5, 500, 0, 0, 0, 0⟩ 2 false false 3
        ⟨⟨500, 5, 500, 0, 0, 0, 0⟩, false⟩).newat.epoch = (0 : Nat) ∧
    (compute_times cfg0 ⟨0, 7, 0, 10, 0, 0, 0⟩ ⟨500, 5, 500, 0, 0, 0, 0⟩ 2 false false 3
        ⟨⟨500, 5, 500, 0, 0, 0, 0⟩, false⟩).newat.exptime = (0 : Nat) ∧
    (compute_times cfg0 ⟨0, 7, 0, 10, 0, 0, 0⟩ ⟨500, 5, 500, 0, 0, 0, 0⟩ 2 false false 3
        ⟨⟨500, 5, 500, 0, 0, 0, 0⟩, false⟩).newat.walltime = (0 : Int) ∧
    (compute_times cfg0 ⟨0, 7, 0, 10, 0, 0, 0⟩ ⟨500, 5, 500, 0, 0, 0, 0⟩ 2 false false 3
        ⟨⟨500, 5, 500, 0, 0, 0, 0⟩, false⟩).orphan = 3 + 1 ∧
    (compute_times cfg0 ⟨0, 7, 0, 10, 0, 0, 0⟩ ⟨500, 5, 500, 0, 0, 0, 0⟩ 2 false false 3
        ⟨⟨500, 5, 500, 0, 0, 0, 0⟩, false⟩).st = ⟨⟨500, 5, 500, 0, 0, 0, 0⟩, false⟩ ∧
    (compute_times cfg0 ⟨0, 7, 0, 10, 0, 0, 0⟩ ⟨500, 5, 500, 0, 0, 0, 0⟩ 2 false false 3
        ⟨⟨500, 5, 500, 0, 0, 0, 0⟩, false⟩).clearBuffer = false :=
  orphan_keeps_state_except_time10 cfg0 ⟨0, 7, 0, 10, 0, 0, 0⟩ ⟨500, 5, 500, 0, 0, 0, 0⟩ 2
    false false 3 ⟨⟨500, 5, 500, 0, 0, 0, 0⟩, false⟩ (by decide) rfl

/-- C10: every record with nonzero runtype raises the RHDR-in-mid-run
warning in the same iteration, including the very first configuration
record, because configknown is set before the mid-run test runs. -/
theorem rhdr_always_alarms (cfg : configuration) (s : MainState) (inp : StepIn)
    (h : inp.runtype ≠ 0) :
    Msg.rhdrMidRun ∈ (mainStep cfg s inp).alarms := by
  have hck : (if inp.runtype ≠ 0 ∧ s.configknown = false then true else s.configknown) = true := by
    by_cases hc : s.configknown = false
    · exact if_pos ⟨h, hc⟩
    · rw [if_neg (fun hand => hc hand.2)]
      exact eq_true_of_ne_false hc
  unfold mainStep
  rw [hck]
  dsimp only
  rw [if_pos (show inp.runtype ≠ 0 ∧ (true : Bool) = true from ⟨h, rfl⟩)]
  split <;> simp

/-- C10 witness: the very first configuration record (runtype 7 on the
initial state with no configuration known) already raises the mid-run
alarm. -/
theorem rhdr_always_alarms_witness :
    Msg.rhdrMidRun ∈ (mainStep cfg0 s0 ⟨7, [], 0, false⟩).alarms :=
  rhdr_always_alarms cfg0 s0 ⟨7, [], 0, false⟩ (by decide)

end Stonehenge


namespace Curl

/-- The severity-class index is always one of the five classes. -/
theorem type_lt (level : Nat) : type level < 5 := by
  unfold type
  split_ifs <;> norm_num

/-- Every per-second budget is at least one message. -/
theorem budget_pos : ∀ c, c < 5 → 1 ≤ Curl.max.getD c 0 := by decide

/-- Unfolding of alarmRun on a nonempty request list. -/
theorem alarmRun_cons (p : Int × Nat) (t : List (Int × Nat)) (s : AlarmState) :
    alarmRun (p :: t) s =
      ((alarmRun t (alarmStep p.1 p.2 s).1).1,
       (alarmStep p.1 p.2 s).2 ++ (alarmRun t (alarmStep p.1 p.2 s).1).2) := rfl

/-- Unfolding of one alarm call within the same wall-clock second: no
flush happens, the class counter is bumped, and the message is delivered
exactly when the bumped counter is within budget. -/
theorem alarmStep_same (level : Nat) (w : Int) (s : AlarmState)
    (hw : s.oldwalltime = w) (h5a : s.alarmn.length = 5) :
    alarmStep w level s =
      (⟨s.alarmn.set (type level) (s.alarmn.getD (type level) 0 + 1),
        if s.alarmn.getD (type level) 0 + 1 > Curl.max.getD (type level) 0 then
          s.overflow.set (type level) (s.overflow.getD (type level) 0 + 1)
        else s.overflow, s.oldwalltime⟩,
       if s.alarmn.getD (type level) 0 + 1 > Curl.max.getD (type level) 0 then []
       else [Emit.sent level]) := by
  have hc5a : type level < s.alarmn.length := by rw [h5a]; exact type_lt level
  have han : (s.alarmn.set (type level) (s.alarmn.getD (type level) 0 + 1)).getD
      (type level) 0 = s.alarmn.getD (type level) 0 + 1 :=
    Stonehenge.getD_set_self _ _ _ hc5a
  unfold alarmStep
  rw [if_neg (show ¬(w ≠ s.oldwalltime) from fun hne => hne hw.symm)]
  dsimp only
  rw [han]
  by_cases hb : s.alarmn.getD (type level) 0 + 1 > Curl.max.getD (type level) 0
  · rw [if_pos hb, if_pos hb, if_pos hb]
  · rw [if_neg hb, if_neg hb, if_neg hb]
    rfl

/-- Filling lemma: a run of n same-second same-class requests from any
state whose suppressed count already equals the over-budget excess adds n
to the class counter, keeps the suppressed count equal to the excess, and
delivers as many messages as still fit in the budget. -/
theorem alarm_fill (level : Nat) (w : Int) :
    ∀ (n : Nat) (s : AlarmState),
      s.oldwalltime = w → s.alarmn.length = 5 → s.overflow.length = 5 →
      s.overflow.getD (type level) 0
        = s.alarmn.getD (type level) 0 - Curl.max.getD (type level) 0 →
      ((alarmRun (List.replicate n (w, level)) s).1.alarmn.getD (type level) 0
          = s.alarmn.getD (type level) 0 + n ∧
        (alarmRun (List.replicate n (w, level)) s).1.overflow.getD (type level) 0
          = s.alarmn.getD (type level) 0 + n - Curl.max.getD (type level) 0 ∧
        countSent (alarmRun (List.replicate n (w, level)) s).2
          = min n (Curl.max.getD (type level) 0 - s.alarmn.getD (type level) 0)) := by
  intro n
  induction n with
  | zero =>
    intro s hw _ _ hov
    refine ⟨by simp [alarmRun], ?_, by simp [alarmRun, countSent]⟩
    simpa [alarmRun] using hov
  | succ n ih =>
    intro s hw h5a h5o hov
    have hc5a : type level < s.alarmn.length := by rw [h5a]; exact type_lt level
    have hc5o : type level < s.overflow.length := by rw [h5o]; exact type_lt level
    have han : (s.alarmn.set (type level) (s.alarmn.getD (type level) 0 + 1)).getD
        (type level) 0 = s.alarmn.getD (type level) 0 + 1 :=
      Stonehenge.getD_set_self _ _ _ hc5a
    have hc5o : type level < s.overflow.length := by rw [h5o]; exact type_lt level
    rw [List.replicate_succ, alarmRun_cons, alarmStep_same level w s hw h5a]
    dsimp only
    by_cases hb : s.alarmn.getD (type level) 0 + 1 > Curl.max.getD (type level) 0
    · rw [if_pos hb, if_pos hb]
      obtain ⟨ih1, ih2, ih3⟩ := ih
        ⟨s.alarmn.set (type level) (s.alarmn.getD (type level) 0 + 1),
          s.overflow.set (type level) (s.overflow.getD (type level) 0 + 1), s.oldwalltime⟩
        hw (by simpa using h5a) (by simpa using h5o)
        (by
          dsimp only
          rw [han, Stonehenge.getD_set_self _ _ _ hc5o, hov]
          omega)
      dsimp only at ih1 ih2 ih3
      rw [han] at ih1 ih2 ih3
      refine ⟨by rw [ih1]; omega, by rw [ih2]; omega, ?_⟩
      rw [List.nil_append, ih3]
      omega
    · rw [if_neg hb, if_neg hb]
      obtain ⟨ih1, ih2, ih3⟩ := ih
        ⟨s.alarmn.set (type level) (s.alarmn.getD (type level) 0 + 1),
          s.overflow, s.oldwalltime⟩
        hw (by simpa using h5a) h5o
        (by
          dsimp only
          rw [han, hov]
          omega)
      dsimp only at ih1 ih2 ih3
      rw [han] at ih1 ih2 ih3
      refine ⟨by rw [ih1]; omega, by rw [ih2]; omega, ?_⟩
      have : countSent (Emit.sent level :: (alarmRun (List.replicate n (w, level))
          ⟨s.alarmn.set (type level) (s.alarmn.getD (type level) 0 + 1),
            s.overflow, s.oldwalltime⟩).2) =
          countSent (alarmRun (List.replicate n (w, level))
            ⟨s.alarmn.set (type level) (s.alarmn.getD (type level) 0 + 1),
              s.overflow, s.oldwalltime⟩).2 + 1 := by
        simp [countSent, List.countP_cons]
      rw [List.singleton_append, this, ih3]
      omega

end Curl


namespace Curl

/-- C7 counterexample: the claim states that on the first request of a new
second, one synthetic skip notification is emitted for every class with a
nonzero suppressed count.  On the code a single summary with the total is
emitted: here two classes (INFO with 2, WARNING with 1) have nonzero
suppressed counts, yet exactly one synthetic notification is delivered,
carrying the total 3. -/
theorem alarm_flush_single_summary :
    countSkip (alarmStep 1 40 ⟨[0, 0, 0, 0, 0], [0, 2, 0, 1, 0], 0⟩).2 = 1 ∧
    ([0, 2, 0, 1, 0] : List Nat).countP (fun x => decide (x ≠ 0)) = 2 ∧
    (alarmStep 1 40 ⟨[0, 0, 0, 0, 0], [0, 2, 0, 1, 0], 0⟩).2 =
      [Emit.skipped 3, Emit.sent 40] := by
  decide

/-- C7 amended: submitting budget+1 same-second same-class messages
forwards exactly budget of them and leaves that class with suppressed
count exactly one; and on the first request after the wall-clock second
advances, a single synthetic skip notification carrying the total
suppressed count over all classes is emitted when that total is nonzero
(none otherwise), all per-second counters are reset (the new message
itself is then counted and delivered), and the stored second advances. -/
theorem alarm_limiter_budget_and_flush :
    (∀ (level : Nat) (w : Int),
      countSent (alarmRun
          (List.replicate (Curl.max.getD (type level) 0 + 1) (w, level))
          ⟨List.replicate 5 0, List.replicate 5 0, w⟩).2 =
        Curl.max.getD (type level) 0 ∧
      (alarmRun (List.replicate (Curl.max.getD (type level) 0 + 1) (w, level))
          ⟨List.replicate 5 0, List.replicate 5 0, w⟩).1.overflow.getD (type level) 0 = 1) ∧
    (∀ (s : AlarmState) (level : Nat) (w : Int), w ≠ s.oldwalltime →
      (alarmStep w level s).2 =
        (if s.overflow.sum ≠ 0 then [Emit.skipped s.overflow.sum] else []) ++
          [Emit.sent level] ∧
      (alarmStep w level s).1.overflow = List.replicate 5 0 ∧
      (alarmStep w level s).1.alarmn = (List.replicate 5 0).set (type level) 1 ∧
      (alarmStep w level s).1.oldwalltime = w) := by
  constructor
  · intro level w
    obtain ⟨f1, f2, f3⟩ := alarm_fill level w (Curl.max.getD (type level) 0 + 1)
      ⟨List.replicate 5 0, List.replicate 5 0, w⟩ rfl rfl rfl
      (by dsimp only; rw [Stonehenge.getD_replicate_zero]; omega)
    constructor
    · rw [f3]
      rw [show (⟨List.replicate 5 0, List.replicate 5 0, w⟩ : AlarmState).alarmn.getD
          (type level) 0 = 0 from Stonehenge.getD_replicate_zero 5 (type level)]
      omega
    · rw [f2]
      rw [show (⟨List.replicate 5 0, List.replicate 5 0, w⟩ : AlarmState).alarmn.getD
          (type level) 0 = 0 from Stonehenge.getD_replicate_zero 5 (type level)]
      omega
  · intro s level w h
    have hlen : type level < (List.replicate 5 (0 : Nat)).length := by
      simpa using type_lt level
    have hbud : ¬(0 + 1 > Curl.max.getD (type level) 0) := by
      have := budget_pos (type level) (type_lt level)
      omega
    unfold alarmStep
    rw [if_pos h]
    dsimp only
    by_cases hs : s.overflow.sum ≠ 0
    · rw [if_pos hs, if_pos hs]
      dsimp only
      rw [Stonehenge.getD_replicate_zero]
      rw [Stonehenge.getD_set_self _ _ _ hlen]
      rw [if_neg hbud]
      exact ⟨rfl, rfl, rfl, rfl⟩
    · rw [if_neg hs, if_neg hs]
      dsimp only
      rw [Stonehenge.getD_replicate_zero]
      rw [Stonehenge.getD_set_self _ _ _ hlen]
      rw [if_neg hbud]
      exact ⟨rfl, rfl, rfl, rfl⟩

/-- C7 witness: the flush part applied at a concrete state with total
suppressed count 3 across two classes, crossing from second 0 to second
1 with an ERROR-class message. -/
theorem alarm_limiter_budget_and_flush_witness :
    (alarmStep 1 40 ⟨[0, 0, 0, 0, 0], [0, 2, 0, 1, 0], 0⟩).2 =
      [Emit.skipped 3, Emit.sent 40] ∧
    (alarmStep 1 40 ⟨[0, 0, 0, 0, 0], [0, 2, 0, 1, 0], 0⟩).1.overflow = List.replicate 5 0 ∧
    (alarmStep 1 40 ⟨[0, 0, 0, 0, 0], [0, 2, 0, 1, 0], 0⟩).1.alarmn =
      (List.replicate 5 0).set (type 40) 1 ∧
    (alarmStep 1 40 ⟨[0, 0, 0, 0, 0], [0, 2, 0, 1, 0], 0⟩).1.oldwalltime = 1 :=
  alarm_limiter_budget_and_flush.2 ⟨[0, 0, 0, 0, 0], [0, 2, 0, 1, 0], 0⟩ 40 1 (by decide)

end Curl
